import Mathlib

/-!
Verification development for the `SakshiEnrolledLearningObjects` React component
(`src/ui.frontend/src/almLib/components/SakshiEnrolledLearningObjects/SakshiEnrolledLearningObjects.tsx`).

The component is single-threaded view logic over two HTTP endpoints and the
browser cookie jar.  We embed it shallowly:

* pure helpers (`getCookieByName`, the search filter, the card construction,
  the truncation of descriptions) become Lean functions on `String`/`List`;
* the asynchronous click handler `checkCourseAvailability` becomes a function
  producing the ordered trace of its observable effects (`preventDefault`,
  state-flag writes, alerts, the outbound request); the outcome of the one
  `await`ed HTTP call is an explicit parameter, since the network is an
  external collaborator;
* the mount-time `fetchData` becomes a function from the cookie jar and the
  outcomes of its two external calls (`JSON.parse`, the catalog request) to
  the resulting component state;
* the JSX return value becomes a `View` datatype computed from the state;
* the interleaving of clicks with an in-flight availability check becomes a
  small step relation (`step`/`run`) whose `click` transition performs exactly
  the synchronous prefix of the handler and whose `finish` transition performs
  the continuation after the `await`.

JavaScript strings are modelled as Lean `String`s (lengths and slices counted
in characters), `undefined`/absent fields as `Option`, and JS truthiness of a
string as "not the empty string" where the source relies on it.
-/

/-- Alert severity used by the notification system (success or error popup);
the enum itself lives outside the analysed file, in
`almLib/common/Alert/AlertDialog`. -/
inductive AlertType where
  | success
  | error
deriving DecidableEq

/-- One entry of a learning object's `localizedMetadata`; `name` and
`description` may be absent (`undefined`) in the payload. -/
structure LocalizedMetadata where
  name : Option String
  description : Option String
deriving DecidableEq

/-- One entry of a learning object's `instances`; only the identifier is
read by the component. -/
structure LoInstance where
  id : String
deriving DecidableEq

/-- The slice of `PrimeLearningObject` the component reads: identifier,
localized metadata, instances, and an optional image URL.  A missing
(`undefined`) `localizedMetadata` or `instances` array is modelled as `[]`,
which the source treats identically (`!course.localizedMetadata ||
!course.localizedMetadata[0]`). -/
structure PrimeLearningObject where
  id : String
  localizedMetadata : List LocalizedMetadata
  instances : List LoInstance
  imageUrl : Option String
deriving DecidableEq

/-- Whitespace characters removed by `String.prototype.trim` (restricted to
the ASCII whitespace that can occur in a cookie jar). -/
def isTrimmableChar (c : Char) : Bool :=
  c = ' ' || c = '\t' || c = '\n' || c = '\r'

/-- Model of JS `trim`: drop leading and trailing whitespace. -/
def trimChars (l : List Char) : List Char :=
  ((l.dropWhile isTrimmableChar).reverse.dropWhile isTrimmableChar).reverse

/-- Model of JS `split(";")` on the character sequence of a string. -/
def splitOnSemicolon : List Char → List (List Char)
  | [] => [[]]
  | c :: rest =>
    if c = ';' then [] :: splitOnSemicolon rest
    else
      match splitOnSemicolon rest with
      | [] => [[c]]
      | h :: t => (c :: h) :: t

/-- Model of JS `startsWith`: `pat` is an initial segment of `s`. -/
def startsWithChars (s pat : List Char) : Bool :=
  match pat, s with
  | [], _ => true
  | _ :: _, [] => false
  | p :: ps, c :: cs => p = c && startsWithChars cs ps

/-- Embedding of the helper `getCookieByName(name)`: split the cookie jar on
`";"`, trim each entry, and return the remainder after `name + "="` for the
first entry starting with it, else `null` (here `none`).  The ambient
`document.cookie` string is the explicit second argument. -/
def getCookieByName (name : String) (cookieJar : String) : Option String :=
  findIn (splitOnSemicolon cookieJar.data)
where
  /-- Loop of `getCookieByName` over the split cookie entries. -/
  findIn : List (List Char) → Option String
    | [] => none
    | cookie :: rest =>
      let c := trimChars cookie
      if startsWithChars c (name.data ++ ['=']) then
        some (String.mk (c.drop (name.length + 1)))
      else findIn rest

/-- Hexadecimal digit (uppercase, as produced by `encodeURIComponent`). -/
def hexDigitChar (n : Nat) : Char :=
  if n < 10 then Char.ofNat (48 + n) else Char.ofNat (55 + n)

/-- UTF-8 bytes of one character, as a list of `Nat`s below 256. -/
def utf8Bytes (c : Char) : List Nat :=
  let n := c.toNat
  if n < 128 then [n]
  else if n < 2048 then [192 + n / 64, 128 + n % 64]
  else if n < 65536 then [224 + n / 4096, 128 + (n / 64) % 64, 128 + n % 64]
  else [240 + n / 262144, 128 + (n / 4096) % 64, 128 + (n / 64) % 64, 128 + n % 64]

/-- Characters `encodeURIComponent` leaves unescaped. -/
def isURIUnreserved (c : Char) : Bool :=
  c.isAlphanum || c = '-' || c = '_' || c = '.' || c = '!' || c = '~' ||
    c = '*' || c = Char.ofNat 39 || c = '(' || c = ')'

/-- Model of the JS builtin `encodeURIComponent`: unreserved characters pass
through, every other character is replaced by the percent-encoding of its
UTF-8 bytes. -/
def encodeURIComponent (s : String) : String :=
  String.mk (List.flatten (s.data.map fun c =>
    if isURIUnreserved c then [c]
    else List.flatten ((utf8Bytes c).map fun b =>
      ['%', hexDigitChar (b / 16), hexDigitChar (b % 16)])))

/-- Observable effects of the click handler, in program order.  `navigate`
is in the vocabulary so that "the handler never programmatically navigates"
is expressible; no branch of the embedded handler emits it. -/
inductive Effect where
  | preventDefault
  | setFlag (value : Bool)
  | almAlert (visible : Bool) (message : String) (alertType : AlertType) (redirect : Bool)
  | request (url : String) (authorization : String)
  | navigate (url : String)
deriving DecidableEq

/-- Shape of a resolved axios response as far as the handler reads it.
`courseName = none` models a payload where reading
`data.data.attributes.localizedMetadata[0].name` throws (some link of the
path is missing); `enrollment = none` models `data.data.relationships` being
absent so that reading `.enrollment` throws; `enrollment = some b` models the
`relationships` object being present with the `enrollment` key present
(`true`) or absent/falsy (`false`). -/
structure AxiosResponse where
  status : Nat
  courseName : Option String
  enrollment : Option Bool
deriving DecidableEq

/-- Outcome of the awaited `axios.get`: either the promise rejects (network
error or, under axios defaults, a non-2xx status) or it resolves to a
response. -/
inductive RequestOutcome where
  | netFailure
  | resp (r : AxiosResponse)
deriving DecidableEq

/-- URL of the per-object availability endpoint, including the
`encodeURIComponent` applied to the course id. -/
def availabilityApiUrl (courseId : String) : String :=
  "https://learningmanager.adobe.com/primeapi/v2/learningObjects/" ++
    encodeURIComponent courseId

/-- Effects the handler emits after the `await` resolves or rejects: the
course name is read first (a missing field throws into the `catch`, which
shows the generic failure alert); then `status === 200 &&
relationships.enrollment` selects the success or not-available alert, with a
throw on a missing `relationships` again landing in the `catch`.  When the
promise rejects, only the generic failure alert is shown. -/
def availabilityResponseEffects (outcome : RequestOutcome) : List Effect :=
  match outcome with
  | RequestOutcome.netFailure =>
    [Effect.almAlert true "FAILED TO VERIFY COURSE AVAILABILITY" AlertType.error true]
  | RequestOutcome.resp r =>
    match r.courseName with
    | none =>
      [Effect.almAlert true "FAILED TO VERIFY COURSE AVAILABILITY" AlertType.error true]
    | some courseName =>
      if r.status = 200 then
        match r.enrollment with
        | none =>
          [Effect.almAlert true "FAILED TO VERIFY COURSE AVAILABILITY" AlertType.error true]
        | some true =>
          [Effect.almAlert true ("COURSE " ++ courseName ++ " IS AVAILABLE FOR YOU!")
            AlertType.success true]
        | some false =>
          [Effect.almAlert true ("COURSE " ++ courseName ++ " IS NOT AVAILABLE FOR YOU!")
            AlertType.error true]
      else
        [Effect.almAlert true ("COURSE " ++ courseName ++ " IS NOT AVAILABLE FOR YOU!")
          AlertType.error true]

/-- Body of the handler's `try` block after the guard: read the
`alm_cp_token` cookie; if absent, alert and reset the flag (the `finally`
clause appends a second reset at the call site); otherwise issue the request
and continue with the response effects. -/
def checkCourseAvailabilityBody (courseId : String) (cookieJar : String)
    (outcome : RequestOutcome) : List Effect :=
  match getCookieByName "alm_cp_token" cookieJar with
  | none =>
    [Effect.almAlert true "AUTHENTICATION TOKEN NOT FOUND" AlertType.error true,
     Effect.setFlag false]
  | some almCpToken =>
    Effect.request (availabilityApiUrl courseId) ("oauth " ++ almCpToken) ::
      availabilityResponseEffects outcome

/-- Embedding of the per-card click handler `checkCourseAvailability` (the
copy inside the memoized `courseGrid`, lines 107-151) as its effect trace.
If `apiCallInProgress` is set the handler returns at once — before
`event.preventDefault()` — with no effects.  Otherwise it calls
`preventDefault`, sets the flag, runs the `try` body, and the `finally`
clause resets the flag on every path (including after the early `return` of
the missing-token branch, whose explicit reset therefore appears twice). -/
def checkCourseAvailability (apiCallInProgress : Bool) (courseId : String)
    (cookieJar : String) (outcome : RequestOutcome) : List Effect :=
  if apiCallInProgress then []
  else
    Effect.preventDefault :: Effect.setFlag true ::
      (checkCourseAvailabilityBody courseId cookieJar outcome ++ [Effect.setFlag false])

/-- Embedding of the textually identical second copy of the click handler
defined in the inline filtered-grid render path (lines 246-290). -/
def checkCourseAvailabilityInline (apiCallInProgress : Bool) (courseId : String)
    (cookieJar : String) (outcome : RequestOutcome) : List Effect :=
  if apiCallInProgress then []
  else
    Effect.preventDefault :: Effect.setFlag true ::
      (checkCourseAvailabilityBody courseId cookieJar outcome ++ [Effect.setFlag false])

/-- Number of outbound availability requests in an effect trace. -/
def countRequests (trace : List Effect) : Nat :=
  trace.countP fun e =>
    match e with
    | Effect.request _ _ => true
    | _ => false

/-- Value of the `apiCallInProgress` flag after an effect trace has been
applied to an initial value: the last `setFlag` wins. -/
def finalFlag (init : Bool) (trace : List Effect) : Bool :=
  trace.foldl (fun f e =>
    match e with
    | Effect.setFlag b => b
    | _ => f) init

/-- Outcome of `JSON.parse` on the `user` cookie value: either it throws
(malformed JSON, with the stringified error) or it yields a value whose
`data.id` field is `dataId` (`none` when the path `data.id` is absent). -/
inductive ParseOutcome where
  | threw (message : String)
  | ok (dataId : Option String)
deriving DecidableEq

/-- Outcome of `getEnrolledLearningObjects(userId)` as observed by
`fetchData`: either the inner `try` caught an error (the function sets the
error state itself and returns `undefined`), or it returned a parsed
response whose `learningObjectList` is `learningObjectList` (`none` when the
field is absent, making `response?.learningObjectList` falsy). -/
inductive CatalogOutcome where
  | failure (message : String)
  | ok (learningObjectList : Option (List PrimeLearningObject))
deriving DecidableEq

/-- Component state relevant to the mount-time fetch, after `fetchData` has
run to completion: the final values of the `isLoading`, `error`, `userId`
and `learningObjects` state variables, plus whether the catalog request was
issued at all. -/
structure FetchState where
  isLoading : Bool
  error : Option String
  userId : Option String
  learningObjects : List PrimeLearningObject
  catalogRequested : Bool
deriving DecidableEq

/-- Embedding of the mount-time `fetchData` (lines 56-89), run once by the
`useEffect` with an empty dependency list (so there is no retry).  The
outcomes of the two external calls — `JSON.parse` on the cookie value and
the catalog request — are supplied as functions.  JS truthiness makes an
empty-string cookie value and an empty-string `data.id` falsy, hence the
explicit `= ""` checks.  The `finally` clause makes `isLoading` false on
every path. -/
def fetchData (cookieJar : String) (parseUserCookie : String → ParseOutcome)
    (catalog : String → CatalogOutcome) : FetchState :=
  match getCookieByName "user" cookieJar with
  | none =>
    { isLoading := false, error := some "User data not found", userId := none,
      learningObjects := [], catalogRequested := false }
  | some cookieValue =>
    if cookieValue = "" then
      { isLoading := false, error := some "User data not found", userId := none,
        learningObjects := [], catalogRequested := false }
    else
      match parseUserCookie cookieValue with
      | ParseOutcome.threw msg =>
        { isLoading := false, error := some ("Error processing data: " ++ msg),
          userId := none, learningObjects := [], catalogRequested := false }
      | ParseOutcome.ok none =>
        { isLoading := false, error := some "User ID not found in the cookie data",
          userId := none, learningObjects := [], catalogRequested := false }
      | ParseOutcome.ok (some id) =>
        if id = "" then
          { isLoading := false, error := some "User ID not found in the cookie data",
            userId := none, learningObjects := [], catalogRequested := false }
        else
          match catalog id with
          | CatalogOutcome.failure msg =>
            { isLoading := false, error := some ("Error loading learning objects: " ++ msg),
              userId := some id, learningObjects := [], catalogRequested := true }
          | CatalogOutcome.ok none =>
            { isLoading := false, error := none, userId := some id,
              learningObjects := [], catalogRequested := true }
          | CatalogOutcome.ok (some list) =>
            { isLoading := false, error := none, userId := some id,
              learningObjects := list, catalogRequested := true }

/-- Fixed fallback image URL used by both render paths. -/
def fallbackImage : String :=
  "https://img.freepik.com/free-vector/online-certification-illustration_23-2148575636.jpg?semt=ais_hybrid&w=740"

/-- Model of JS `substring(0, n)` on our character-counted strings. -/
def jsSubstringTo (s : String) (n : Nat) : String :=
  String.mk (s.data.take n)

/-- The data of one rendered course card: the link URL, the image source and
alt text, the title, the displayed description, and the course id passed to
the click handler. -/
structure Card where
  courseUrl : String
  imageSrc : String
  imageAlt : String
  title : String
  descriptionText : String
  clickCourseId : String
deriving DecidableEq

/-- Card construction of the memoized `courseGrid` path (lines 96-183):
`none` when the object has no first `localizedMetadata` entry (the JSX
returns `null`); otherwise the card with the navigation URL built from the
object id and first instance id, the image with fallback (an empty or absent
`imageUrl` is falsy), the title and alt with their fallbacks, and the
100-character description truncation (an empty or absent description is
falsy and shows the placeholder). -/
def renderCardMemo (course : PrimeLearningObject) : Option Card :=
  match course.localizedMetadata.head? with
  | none => none
  | some metadata =>
    let instanceId :=
      match course.instances.head? with
      | some inst => inst.id
      | none => ""
    let courseUrl :=
      "http://localhost:4505/content/learning/language-masters/en/overview.html/trainingId/" ++
        course.id ++ "/trainingInstanceId/" ++ instanceId ++ "/home.html"
    some
      { courseUrl := courseUrl
        imageSrc :=
          match course.imageUrl with
          | some u => if u = "" then fallbackImage else u
          | none => fallbackImage
        imageAlt :=
          match metadata.name with
          | some n => if n = "" then "Course image" else n
          | none => "Course image"
        title :=
          match metadata.name with
          | some n => if n = "" then "Untitled Course" else n
          | none => "Untitled Course"
        descriptionText :=
          match metadata.description with
          | some d =>
            if d = "" then "No description available"
            else if d.length > 100 then jsSubstringTo d 100 ++ "..." else d
          | none => "No description available"
        clickCourseId := course.id }

/-- Card construction of the inline filtered-grid render path (lines
235-322), textually identical in the source to the memoized one. -/
def renderCardInline (course : PrimeLearningObject) : Option Card :=
  match course.localizedMetadata.head? with
  | none => none
  | some metadata =>
    let instanceId :=
      match course.instances.head? with
      | some inst => inst.id
      | none => ""
    let courseUrl :=
      "http://localhost:4505/content/learning/language-masters/en/overview.html/trainingId/" ++
        course.id ++ "/trainingInstanceId/" ++ instanceId ++ "/home.html"
    some
      { courseUrl := courseUrl
        imageSrc :=
          match course.imageUrl with
          | some u => if u = "" then fallbackImage else u
          | none => fallbackImage
        imageAlt :=
          match metadata.name with
          | some n => if n = "" then "Course image" else n
          | none => "Course image"
        title :=
          match metadata.name with
          | some n => if n = "" then "Untitled Course" else n
          | none => "Untitled Course"
        descriptionText :=
          match metadata.description with
          | some d =>
            if d = "" then "No description available"
            else if d.length > 100 then jsSubstringTo d 100 ++ "..." else d
          | none => "No description available"
        clickCourseId := course.id }

/-- The memoized card grid: one (possibly `null`) card per fetched learning
object. -/
def courseGrid (learningObjects : List PrimeLearningObject) : List (Option Card) :=
  learningObjects.map renderCardMemo

/-- Model of JS `String.prototype.includes` on character sequences: `pat`
occurs contiguously in `s`. -/
def jsIncludes (s pat : List Char) : Bool :=
  decide (List.IsInfix pat s)

/-- Lower-cased character sequence of a string (JS `toLowerCase`). -/
def toLowerChars (s : String) : List Char :=
  s.data.map Char.toLower

/-- Filter callback of the `filteredCourses` memo (lines 187-199): keep the
objects whose first metadata entry's name or description contains the
search term case-insensitively, skipping objects without a first metadata
entry (optional chaining makes an absent field contribute `false`). -/
def searchMatches (searchTerm : String) (course : PrimeLearningObject) : Bool :=
  match course.localizedMetadata.head? with
  | none => false
  | some metadata =>
    (match metadata.name with
     | some n => jsIncludes (toLowerChars n) (toLowerChars searchTerm)
     | none => false) ||
    (match metadata.description with
     | some d => jsIncludes (toLowerChars d) (toLowerChars searchTerm)
     | none => false)

/-- Embedding of the `filteredCourses` memo, continued: blank search keeps
the fetched list, otherwise filter by `searchMatches`. -/
def filteredCourses (learningObjects : List PrimeLearningObject)
    (searchTerm : String) : List PrimeLearningObject :=
  if trimChars searchTerm.data = [] then learningObjects
  else learningObjects.filter (searchMatches searchTerm)

/-- Body of the component output below the search bar. -/
inductive Content where
  | noEnrolled
  | noMatch
  | grid (cards : List (Option Card))
deriving DecidableEq

/-- The component's rendered output: the loading message, the error panel,
or the body with the search bar visibility, the optional results-count text,
and the grid or empty-state message. -/
inductive View where
  | loading
  | errorPanel (message : String)
  | body (searchShown : Bool) (resultsCount : Option String) (content : Content)
deriving DecidableEq

/-- The results-count line shown while a search term is set:
`Found {n} {n === 1 ? 'course' : 'courses'}`. -/
def resultsCountText (n : Nat) : String :=
  "Found " ++ toString n ++ " " ++ (if n = 1 then "course" else "courses")

/-- Embedding of the JSX return value (lines 202-333) as a function of the
component state: loading wins, then the error panel; otherwise the search
bar is shown iff the fetched list is non-empty, the results count iff
additionally the search term is truthy, and the body is the inline filtered
grid, the no-match message, or the no-enrolled message. -/
def render (isLoading : Bool) (error : Option String)
    (learningObjects : List PrimeLearningObject) (searchTerm : String) : View :=
  if isLoading then View.loading
  else
    match error with
    | some e => View.errorPanel e
    | none =>
      let filtered := filteredCourses learningObjects searchTerm
      View.body (learningObjects.length > 0)
        (if learningObjects.length > 0 ∧ searchTerm ≠ "" then
          some (resultsCountText filtered.length)
        else none)
        (if learningObjects.length > 0 then
          if filtered.length > 0 then Content.grid (filtered.map renderCardInline)
          else Content.noMatch
        else Content.noEnrolled)

/-- Content part of a rendered view, when it reached the body. -/
def View.contentOf : View → Option Content
  | View.body _ _ c => some c
  | _ => none

/-- Results-count text of a rendered view, when present. -/
def View.resultsCountOf : View → Option String
  | View.body _ r _ => r
  | _ => none

/-- Events of the interleaving model: a click on the card of `courseId`
with the given cookie jar and (future) request outcome, or the completion
of the in-flight availability request. -/
inductive Ev where
  | click (courseId : String) (cookieJar : String) (outcome : RequestOutcome)
  | finish
deriving DecidableEq

/-- State of the interleaving model: the `apiCallInProgress` flag, the
outcome of the in-flight request if one is pending, and the cumulative
effect trace. -/
structure SysState where
  flag : Bool
  pending : Option RequestOutcome
  trace : List Effect
deriving DecidableEq

/-- One step of the interleaving model.  A click with the flag set returns
before any effect.  A click with the flag clear runs the synchronous prefix
of the handler: with no token the whole handler completes synchronously
(nothing is awaited before the token check); with a token it suspends at the
`await` with the flag set and the outcome pending.  `finish` resumes a
pending handler with the post-`await` effects and the `finally` reset. -/
def step (s : SysState) : Ev → SysState
  | Ev.click courseId cookieJar outcome =>
    if s.flag then s
    else
      match getCookieByName "alm_cp_token" cookieJar with
      | none =>
        { s with trace := s.trace ++
            (Effect.preventDefault :: Effect.setFlag true ::
              (checkCourseAvailabilityBody courseId cookieJar outcome ++
                [Effect.setFlag false])) }
      | some almCpToken =>
        { flag := true, pending := some outcome,
          trace := s.trace ++
            [Effect.preventDefault, Effect.setFlag true,
             Effect.request (availabilityApiUrl courseId) ("oauth " ++ almCpToken)] }
  | Ev.finish =>
    match s.pending with
    | none => s
    | some outcome =>
      { flag := false, pending := none,
        trace := s.trace ++ availabilityResponseEffects outcome ++ [Effect.setFlag false] }

/-- Run of the interleaving model over a sequence of events. -/
def run (s : SysState) (evs : List Ev) : SysState :=
  evs.foldl step s

/-- Initial state of the interleaving model: no check in flight, empty
trace. -/
def initState : SysState :=
  { flag := false, pending := none, trace := [] }

/-- Following the claim's words for the search filter (for comparison with
`filteredCourses`): the object's first `localizedMetadata` entry exists and
its name or description contains the search term as a case-insensitive
substring. -/
def specMatches (course : PrimeLearningObject) (searchTerm : String) : Prop :=
  ∃ metadata, course.localizedMetadata.head? = some metadata ∧
    ((∃ n, metadata.name = some n ∧
        List.IsInfix (toLowerChars searchTerm) (toLowerChars n)) ∨
     (∃ d, metadata.description = some d ∧
        List.IsInfix (toLowerChars searchTerm) (toLowerChars d)))

/-! ## Helper lemmas -/

theorem navigate_not_mem_responseEffects (u : String) (out : RequestOutcome) :
    Effect.navigate u ∉ availabilityResponseEffects out := by
  rcases out with _ | ⟨st, cn, en⟩
  · simp [availabilityResponseEffects]
  · rcases cn with _ | n
    · simp [availabilityResponseEffects]
    · by_cases h : st = 200
      · subst h
        rcases en with _ | b
        · simp [availabilityResponseEffects]
        · cases b <;> simp [availabilityResponseEffects]
      · simp [availabilityResponseEffects, h]

theorem navigate_not_mem_body (u courseId cookieJar : String) (out : RequestOutcome) :
    Effect.navigate u ∉ checkCourseAvailabilityBody courseId cookieJar out := by
  unfold checkCourseAvailabilityBody
  cases getCookieByName "alm_cp_token" cookieJar with
  | none => simp
  | some tok => simp [navigate_not_mem_responseEffects]

theorem countRequests_responseEffects (out : RequestOutcome) :
    countRequests (availabilityResponseEffects out) = 0 := by
  rcases out with _ | ⟨st, cn, en⟩
  · simp [availabilityResponseEffects, countRequests]
  · rcases cn with _ | n
    · simp [availabilityResponseEffects, countRequests]
    · by_cases h : st = 200
      · subst h
        rcases en with _ | b
        · simp [availabilityResponseEffects, countRequests]
        · cases b <;> simp [availabilityResponseEffects, countRequests]
      · simp [availabilityResponseEffects, countRequests, h]

theorem countRequests_body (courseId cookieJar : String) (out : RequestOutcome) :
    countRequests (checkCourseAvailabilityBody courseId cookieJar out) ≤ 1 := by
  unfold checkCourseAvailabilityBody
  cases getCookieByName "alm_cp_token" cookieJar with
  | none => simp [countRequests]
  | some tok =>
    simp [countRequests, List.countP_cons]
    simpa [countRequests] using Nat.le_of_eq (countRequests_responseEffects out)

theorem step_preserves_pending_flag (s : SysState) (e : Ev)
    (h : s.pending.isSome = true → s.flag = true) :
    (step s e).pending.isSome = true → (step s e).flag = true := by
  cases e with
  | click courseId cookieJar out =>
    cases hf : s.flag with
    | true =>
      intro _
      simp [step, hf]
    | false =>
      cases hc : getCookieByName "alm_cp_token" cookieJar with
      | none =>
        intro hp
        simp [step, hf, hc] at hp ⊢
        exact absurd (h hp) (by simp [hf])
      | some tok => simp [step, hf, hc]
  | finish =>
    cases hp : s.pending with
    | none => simp [step, hp]
    | some out => simp [step, hp]

theorem run_pending_imp_flag (evs : List Ev) (s : SysState)
    (h : s.pending.isSome = true → s.flag = true) :
    (run s evs).pending.isSome = true → (run s evs).flag = true := by
  induction evs generalizing s with
  | nil => simpa [run] using h
  | cons e rest ih =>
    simpa [run] using ih (step s e) (step_preserves_pending_flag s e h)

/-! ## Claim theorems -/

/-- C1 counterexample: the claim says `preventDefault` is called on every
invocation of the click handler, but an invocation while a check is in
flight (`apiCallInProgress = true`) returns before `event.preventDefault()`
and produces no effects at all, so that click's default navigation is not
suppressed. -/
theorem c1_counterexample :
    Effect.preventDefault ∉
      checkCourseAvailability true "course-1" "alm_cp_token=t" RequestOutcome.netFailure := by
  decide

/-- C1 (amended): `preventDefault` is called on every invocation of the
click handler entered while no check is in flight; an invocation while a
check is in flight returns early with no effects (so that click is not
suppressed); and no invocation ever performs a programmatic follow-up
navigation. -/
theorem c1_preventDefault_and_no_navigation (flag : Bool) (courseId cookieJar : String)
    (out : RequestOutcome) :
    (flag = false →
      Effect.preventDefault ∈ checkCourseAvailability flag courseId cookieJar out) ∧
    (flag = true → checkCourseAvailability flag courseId cookieJar out = []) ∧
    (∀ u, Effect.navigate u ∉ checkCourseAvailability flag courseId cookieJar out) := by
  refine ⟨fun hf => ?_, fun hf => ?_, fun u => ?_⟩
  · subst hf; simp [checkCourseAvailability]
  · subst hf; simp [checkCourseAvailability]
  · cases flag with
    | true => simp [checkCourseAvailability]
    | false => simp [checkCourseAvailability, navigate_not_mem_body]

/-- C1 witness: at a concrete idle-state invocation, `preventDefault` is in
the trace. -/
theorem c1_witness :
    Effect.preventDefault ∈
      checkCourseAvailability false "course-1" "" RequestOutcome.netFailure :=
  (c1_preventDefault_and_no_navigation false "course-1" "" RequestOutcome.netFailure).1 rfl

/-- C2: a click while a check is in flight produces no effects at all — in
particular no outbound availability request and no queued work; in the
interleaving model such a click leaves the state unchanged, whenever a check
is pending the guard flag is set (so no reachable state starts a second
check), and any single invocation issues at most one request. -/
theorem c2_single_flight :
    (∀ courseId cookieJar out,
      checkCourseAvailability true courseId cookieJar out = []) ∧
    (∀ s courseId cookieJar out, s.flag = true →
      step s (Ev.click courseId cookieJar out) = s) ∧
    (∀ evs, ((run initState evs).pending).isSome = true → (run initState evs).flag = true) ∧
    (∀ flag courseId cookieJar out,
      countRequests (checkCourseAvailability flag courseId cookieJar out) ≤ 1) := by
  refine ⟨fun courseId cookieJar out => ?_, fun s courseId cookieJar out h => ?_,
    fun evs => ?_, fun flag courseId cookieJar out => ?_⟩
  · simp [checkCourseAvailability]
  · simp [step, h]
  · exact run_pending_imp_flag evs initState (by simp [initState])
  · cases flag with
    | true => simp [checkCourseAvailability, countRequests]
    | false =>
      simpa [checkCourseAvailability, countRequests, List.countP_cons, List.countP_append]
        using countRequests_body courseId cookieJar out

/-- C2 witness: a concrete in-flight click is a no-op of the step relation,
and a concrete in-flight invocation has an empty trace. -/
theorem c2_witness :
    step { flag := true, pending := none, trace := [] }
        (Ev.click "course-1" "alm_cp_token=t" RequestOutcome.netFailure) =
      { flag := true, pending := none, trace := [] } ∧
    checkCourseAvailability true "course-1" "alm_cp_token=t" RequestOutcome.netFailure = [] :=
  ⟨c2_single_flight.2.1 { flag := true, pending := none, trace := [] }
      "course-1" "alm_cp_token=t" RequestOutcome.netFailure rfl,
    c2_single_flight.1 "course-1" "alm_cp_token=t" RequestOutcome.netFailure⟩

/-- C4: on a click entering the handler with no `alm_cp_token` cookie, the
trace is exactly `preventDefault`, the guard set, the
"AUTHENTICATION TOKEN NOT FOUND" error alert and the guard resets — and it
contains no outbound availability request. -/
theorem c4_missing_token_no_request (courseId cookieJar : String) (out : RequestOutcome)
    (h : getCookieByName "alm_cp_token" cookieJar = none) :
    checkCourseAvailability false courseId cookieJar out =
      [Effect.preventDefault, Effect.setFlag true,
       Effect.almAlert true "AUTHENTICATION TOKEN NOT FOUND" AlertType.error true,
       Effect.setFlag false, Effect.setFlag false] ∧
    ∀ u a, Effect.request u a ∉ checkCourseAvailability false courseId cookieJar out := by
  constructor
  · simp [checkCourseAvailability, checkCourseAvailabilityBody, h]
  · intro u a
    simp [checkCourseAvailability, checkCourseAvailabilityBody, h]

/-- C4 witness: concrete click with an empty cookie jar. -/
theorem c4_witness :
    checkCourseAvailability false "course-1" "" RequestOutcome.netFailure =
      [Effect.preventDefault, Effect.setFlag true,
       Effect.almAlert true "AUTHENTICATION TOKEN NOT FOUND" AlertType.error true,
       Effect.setFlag false, Effect.setFlag false] :=
  (c4_missing_token_no_request "course-1" "" RequestOutcome.netFailure (by decide)).1

/-- C5: for an issued availability request, a 200 response with the
enrollment relationship shows the success alert naming the course; a
response without the enrollment relationship shows the not-available alert
naming the course; and a rejected request, a missing course-name field, or a
missing `relationships` object each show the generic
"FAILED TO VERIFY COURSE AVAILABILITY" alert. -/
theorem c5_availability_notifications (courseId cookieJar tok name : String)
    (r : AxiosResponse) (htok : getCookieByName "alm_cp_token" cookieJar = some tok) :
    (r.courseName = some name → r.status = 200 → r.enrollment = some true →
      Effect.almAlert true ("COURSE " ++ name ++ " IS AVAILABLE FOR YOU!") AlertType.success true
        ∈ checkCourseAvailability false courseId cookieJar (RequestOutcome.resp r)) ∧
    (r.courseName = some name → r.enrollment = some false →
      Effect.almAlert true ("COURSE " ++ name ++ " IS NOT AVAILABLE FOR YOU!") AlertType.error true
        ∈ checkCourseAvailability false courseId cookieJar (RequestOutcome.resp r)) ∧
    (Effect.almAlert true "FAILED TO VERIFY COURSE AVAILABILITY" AlertType.error true
        ∈ checkCourseAvailability false courseId cookieJar RequestOutcome.netFailure) ∧
    (r.courseName = none →
      Effect.almAlert true "FAILED TO VERIFY COURSE AVAILABILITY" AlertType.error true
        ∈ checkCourseAvailability false courseId cookieJar (RequestOutcome.resp r)) ∧
    (r.status = 200 → r.enrollment = none →
      Effect.almAlert true "FAILED TO VERIFY COURSE AVAILABILITY" AlertType.error true
        ∈ checkCourseAvailability false courseId cookieJar (RequestOutcome.resp r)) := by
  rcases r with ⟨st, cn, en⟩
  refine ⟨fun hcn hst hen => ?_, fun hcn hen => ?_, ?_, fun hcn => ?_, fun hst hen => ?_⟩
  · simp only at hcn hst hen
    subst hcn; subst hst; subst hen
    simp [checkCourseAvailability, checkCourseAvailabilityBody, htok,
      availabilityResponseEffects]
  · simp only at hcn hen
    subst hcn; subst hen
    by_cases hst : st = 200
    · subst hst
      simp [checkCourseAvailability, checkCourseAvailabilityBody, htok,
        availabilityResponseEffects]
    · simp [checkCourseAvailability, checkCourseAvailabilityBody, htok,
        availabilityResponseEffects, hst]
  · simp [checkCourseAvailability, checkCourseAvailabilityBody, htok,
      availabilityResponseEffects]
  · simp only at hcn
    subst hcn
    simp [checkCourseAvailability, checkCourseAvailabilityBody, htok,
      availabilityResponseEffects]
  · simp only at hst hen
    subst hst; subst hen
    cases cn with
    | none =>
      simp [checkCourseAvailability, checkCourseAvailabilityBody, htok,
        availabilityResponseEffects]
    | some n =>
      simp [checkCourseAvailability, checkCourseAvailabilityBody, htok,
        availabilityResponseEffects]

/-- C5 witness: a concrete 200 response carrying the enrollment relationship
yields the success alert for the named course. -/
theorem c5_witness :
    Effect.almAlert true "COURSE Algebra IS AVAILABLE FOR YOU!" AlertType.success true
      ∈ checkCourseAvailability false "course-1" "alm_cp_token=t"
          (RequestOutcome.resp ⟨200, some "Algebra", some true⟩) :=
  (c5_availability_notifications "course-1" "alm_cp_token=t" "t" "Algebra"
    ⟨200, some "Algebra", some true⟩ (by decide)).1 rfl rfl rfl

/-- C10: every invocation of the click handler that begins a check (entered
with `apiCallInProgress = false`) leaves the guard reset to `false` on every
path — missing token, success, missing enrollment, and thrown error alike —
because the `finally` clause always runs. -/
theorem c10_guard_always_released (courseId cookieJar : String) (out : RequestOutcome) :
    finalFlag false (checkCourseAvailability false courseId cookieJar out) = false := by
  simp [checkCourseAvailability, finalFlag, List.foldl_append]

/-- C3: on mount, a missing `user` cookie sets the error
"User data not found", stops loading and issues no catalog fetch; a
present but malformed cookie value (`JSON.parse` throws) sets a
user-visible "Error processing data" message, stops loading and issues no
catalog fetch; and a parsed value without `data.id` sets
"User ID not found in the cookie data", stops loading and issues no
catalog fetch.  `fetchData` is a total function (no crash) and is invoked
once by the mount effect with an empty dependency list (no retry). -/
theorem c3_mount_error_paths (cookieJar : String)
    (parse : String → ParseOutcome) (catalog : String → CatalogOutcome) :
    (getCookieByName "user" cookieJar = none →
      fetchData cookieJar parse catalog =
        { isLoading := false, error := some "User data not found", userId := none,
          learningObjects := [], catalogRequested := false }) ∧
    (∀ v msg, getCookieByName "user" cookieJar = some v → v ≠ "" →
      parse v = ParseOutcome.threw msg →
      fetchData cookieJar parse catalog =
        { isLoading := false, error := some ("Error processing data: " ++ msg),
          userId := none, learningObjects := [], catalogRequested := false }) ∧
    (∀ v, getCookieByName "user" cookieJar = some v → v ≠ "" →
      parse v = ParseOutcome.ok none →
      fetchData cookieJar parse catalog =
        { isLoading := false, error := some "User ID not found in the cookie data",
          userId := none, learningObjects := [], catalogRequested := false }) := by
  refine ⟨fun h => ?_, fun v msg hv hne hp => ?_, fun v hv hne hp => ?_⟩
  · simp [fetchData, h]
  · simp [fetchData, hv, hne, hp]
  · simp [fetchData, hv, hne, hp]

/-- C3 witness: concrete cookie jars exercising the three error paths. -/
theorem c3_witness :
    (fetchData "" (fun _ => ParseOutcome.ok none) (fun _ => CatalogOutcome.ok none) =
      { isLoading := false, error := some "User data not found", userId := none,
        learningObjects := [], catalogRequested := false }) ∧
    (fetchData "user=bad" (fun _ => ParseOutcome.threw "SyntaxError")
        (fun _ => CatalogOutcome.ok none) =
      { isLoading := false, error := some "Error processing data: SyntaxError",
        userId := none, learningObjects := [], catalogRequested := false }) ∧
    (fetchData "user=noid" (fun _ => ParseOutcome.ok none)
        (fun _ => CatalogOutcome.ok none) =
      { isLoading := false, error := some "User ID not found in the cookie data",
        userId := none, learningObjects := [], catalogRequested := false }) :=
  ⟨(c3_mount_error_paths "" (fun _ => ParseOutcome.ok none)
      (fun _ => CatalogOutcome.ok none)).1 (by decide),
   (c3_mount_error_paths "user=bad" (fun _ => ParseOutcome.threw "SyntaxError")
      (fun _ => CatalogOutcome.ok none)).2.1 "bad" "SyntaxError" (by decide) (by decide) rfl,
   (c3_mount_error_paths "user=noid" (fun _ => ParseOutcome.ok none)
      (fun _ => CatalogOutcome.ok none)).2.2 "noid" (by decide) (by decide) rfl⟩

theorem searchMatches_iff_specMatches (course : PrimeLearningObject) (searchTerm : String) :
    searchMatches searchTerm course = true ↔ specMatches course searchTerm := by
  unfold searchMatches
  cases hm : course.localizedMetadata.head? with
  | none => simp [specMatches, hm]
  | some metadata =>
    rcases metadata with ⟨mn, md⟩
    cases mn <;> cases md <;> simp [specMatches, hm, jsIncludes]

/-- C6: a blank (empty or whitespace-only) search term leaves the fetched
list unchanged; a non-blank term keeps exactly the objects whose first
`localizedMetadata` entry's name or description contains the term as a
case-insensitive substring, excluding objects without a first metadata
entry. -/
theorem c6_filter_characterization (learningObjects : List PrimeLearningObject)
    (searchTerm : String) :
    (trimChars searchTerm.data = [] →
      filteredCourses learningObjects searchTerm = learningObjects) ∧
    (trimChars searchTerm.data ≠ [] →
      ∀ course, course ∈ filteredCourses learningObjects searchTerm ↔
        course ∈ learningObjects ∧ specMatches course searchTerm) := by
  constructor
  · intro h
    simp [filteredCourses, h]
  · intro h course
    simp [filteredCourses, h, List.mem_filter, searchMatches_iff_specMatches]

/-- C6 witness: a concrete case-insensitive match is kept by the filter. -/
theorem c6_witness :
    (⟨"c1", [⟨some "Alpha", none⟩], [], none⟩ : PrimeLearningObject) ∈
      filteredCourses [⟨"c1", [⟨some "Alpha", none⟩], [], none⟩] "ALPH" :=
  ((c6_filter_characterization [⟨"c1", [⟨some "Alpha", none⟩], [], none⟩] "ALPH").2
      (by decide) ⟨"c1", [⟨some "Alpha", none⟩], [], none⟩).mpr
    ⟨by simp, ⟨some "Alpha", none⟩, rfl, Or.inl ⟨"Alpha", rfl, by decide⟩⟩

/-- C7: after loading finishes without error, an empty fetched list renders
the "No enrolled courses found." state; a non-empty fetched list with an
empty filter result renders the "No courses match your search criteria."
state; and with a non-empty search term the results count reads
"Found 1 course" exactly when the filtered count is 1 and uses the plural
"courses" otherwise. -/
theorem c7_empty_states_and_count (learningObjects : List PrimeLearningObject)
    (searchTerm : String) :
    (render false none [] searchTerm = View.body false none Content.noEnrolled) ∧
    (learningObjects ≠ [] → filteredCourses learningObjects searchTerm = [] →
      View.contentOf (render false none learningObjects searchTerm) =
        some Content.noMatch) ∧
    (learningObjects ≠ [] → searchTerm ≠ "" →
      (filteredCourses learningObjects searchTerm).length = 1 →
      View.resultsCountOf (render false none learningObjects searchTerm) =
        some "Found 1 course") ∧
    (learningObjects ≠ [] → searchTerm ≠ "" →
      (filteredCourses learningObjects searchTerm).length ≠ 1 →
      View.resultsCountOf (render false none learningObjects searchTerm) =
        some ("Found " ++ toString (filteredCourses learningObjects searchTerm).length ++
          " " ++ "courses")) := by
  refine ⟨?_, fun hne hfe => ?_, fun hne hts h1 => ?_, fun hne hts h1 => ?_⟩
  · simp [render, filteredCourses]
  · have hlen : 0 < learningObjects.length := List.length_pos.mpr hne
    simp [render, View.contentOf, hfe, hlen]
  · have hlen : 0 < learningObjects.length := List.length_pos.mpr hne
    simp [render, View.resultsCountOf, hlen, hts, h1, resultsCountText]
    decide
  · have hlen : 0 < learningObjects.length := List.length_pos.mpr hne
    simp [render, View.resultsCountOf, hlen, hts, h1, resultsCountText]

/-- C7 witness: a one-element list with a matching search term shows the
singular count, a non-matching term shows the no-match state, and the empty
list shows the no-courses state. -/
theorem c7_witness :
    (render false none [] "x" = View.body false none Content.noEnrolled) ∧
    (View.contentOf (render false none [⟨"c1", [⟨some "Alpha", none⟩], [], none⟩] "zz") =
      some Content.noMatch) ∧
    (View.resultsCountOf (render false none [⟨"c1", [⟨some "Alpha", none⟩], [], none⟩] "alp") =
      some "Found 1 course") :=
  ⟨(c7_empty_states_and_count [] "x").1,
   (c7_empty_states_and_count [⟨"c1", [⟨some "Alpha", none⟩], [], none⟩] "zz").2.1
     (by decide) (by decide),
   (c7_empty_states_and_count [⟨"c1", [⟨some "Alpha", none⟩], [], none⟩] "alp").2.2.1
     (by decide) (by decide) (by decide)⟩

/-- C8 counterexample: a card whose first-metadata description is the empty
string (length 0, hence at most 100) displays "No description available",
not the description unchanged — JS truthiness sends the empty string to the
placeholder branch. -/
theorem c8_counterexample :
    (("" : String).length ≤ 100) ∧
    (renderCardInline ⟨"c", [⟨some "T", some ""⟩], [], none⟩).map Card.descriptionText ≠
      some "" ∧
    (renderCardInline ⟨"c", [⟨some "T", some ""⟩], [], none⟩).map Card.descriptionText =
      some "No description available" := by
  refine ⟨by decide, by decide, by decide⟩

/-- C8 (amended): for every rendered card whose description is present and
non-empty, the displayed description is the description unchanged when its
length is at most 100 characters and the first 100 characters followed by
"..." when longer; an absent or empty description displays
"No description available". -/
theorem c8_description_truncation (course : PrimeLearningObject)
    (metadata : LocalizedMetadata) (d : String)
    (hm : course.localizedMetadata.head? = some metadata)
    (hd : metadata.description = some d) :
    (d ≠ "" → d.length ≤ 100 →
      (renderCardInline course).map Card.descriptionText = some d) ∧
    (d.length > 100 →
      (renderCardInline course).map Card.descriptionText =
        some (jsSubstringTo d 100 ++ "...")) ∧
    (d = "" →
      (renderCardInline course).map Card.descriptionText =
        some "No description available") := by
  refine ⟨fun hne hle => ?_, fun hgt => ?_, fun he => ?_⟩
  · simp [renderCardInline, hm, hd, hne, Nat.not_lt.mpr hle]
  · have hne : d ≠ "" := by
      intro he
      rw [he] at hgt
      simp at hgt
    simp [renderCardInline, hm, hd, hne, hgt]
  · subst he
    simp [renderCardInline, hm, hd]

/-- C8 witness: a short description is shown unchanged and a 101-character
description is truncated to 100 characters plus "...". -/
theorem c8_witness :
    ((renderCardInline ⟨"c", [⟨some "T", some "short"⟩], [], none⟩).map
        Card.descriptionText = some "short") ∧
    ((renderCardInline ⟨"c", [⟨some "T", some "aaaaaaaaaaaaaaaaaaaaaaaaaaaaaaaaaaaaaaaaaaaaaaaaaaaaaaaaaaaaaaaaaaaaaaaaaaaaaaaaaaaaaaaaaaaaaaaaaaaaa"⟩], [], none⟩).map
        Card.descriptionText = some (jsSubstringTo "aaaaaaaaaaaaaaaaaaaaaaaaaaaaaaaaaaaaaaaaaaaaaaaaaaaaaaaaaaaaaaaaaaaaaaaaaaaaaaaaaaaaaaaaaaaaaaaaaaaaa" 100 ++ "...")) :=
  ⟨(c8_description_truncation ⟨"c", [⟨some "T", some "short"⟩], [], none⟩
      ⟨some "T", some "short"⟩ "short" rfl rfl).1 (by decide) (by decide),
   (c8_description_truncation ⟨"c", [⟨some "T", some "aaaaaaaaaaaaaaaaaaaaaaaaaaaaaaaaaaaaaaaaaaaaaaaaaaaaaaaaaaaaaaaaaaaaaaaaaaaaaaaaaaaaaaaaaaaaaaaaaaaaa"⟩], [], none⟩
      ⟨some "T", some "aaaaaaaaaaaaaaaaaaaaaaaaaaaaaaaaaaaaaaaaaaaaaaaaaaaaaaaaaaaaaaaaaaaaaaaaaaaaaaaaaaaaaaaaaaaaaaaaaaaaa"⟩ "aaaaaaaaaaaaaaaaaaaaaaaaaaaaaaaaaaaaaaaaaaaaaaaaaaaaaaaaaaaaaaaaaaaaaaaaaaaaaaaaaaaaaaaaaaaaaaaaaaaaa" rfl rfl).2.1 (by decide)⟩

/-- C9: the two duplicated render paths are extensionally equal — the
memoized card construction and the inline one agree on every learning
object, the memoized grid is exactly the map of the inline card constructor,
and the two copies of the click handler agree on every input — so the
duplicated logic can collapse into one path without changing output. -/
theorem c9_render_paths_agree :
    (∀ course, renderCardMemo course = renderCardInline course) ∧
    (∀ learningObjects, courseGrid learningObjects =
      learningObjects.map renderCardInline) ∧
    (∀ apiCallInProgress courseId cookieJar outcome,
      checkCourseAvailability apiCallInProgress courseId cookieJar outcome =
        checkCourseAvailabilityInline apiCallInProgress courseId cookieJar outcome) := by
  refine ⟨fun course => rfl, fun learningObjects => ?_, fun a b c d => rfl⟩
  have h : renderCardMemo = renderCardInline := funext fun _ => rfl
  simp [courseGrid, h]
